import Mathlib

/-!
Verification of the tank-volume core of the ha-tank-volume integration.

The embedding follows custom_components/tank_volume/sensor.py and
custom_components/tank_volume/const.py.  Python floats are modelled as
real numbers; a Python function that can return None (or whose guarded
exceptions are converted to None by a try/except) is modelled as an
Option-valued function whose none branch mirrors exactly the conditions
under which the Python code returns None or raises a guarded error
(ValueError from math.acos or math.sqrt out of domain, ZeroDivisionError
from a zero denominator).
-/

open Real

namespace TankVolume

/-! ### Constants from const.py -/

/-- const.py line 42: reference temperature in Fahrenheit. -/
def REFERENCE_TEMPERATURE_F : ℝ := 60.0

/-- const.py line 45: empirically calibrated propane expansion coefficient
per degree Fahrenheit. -/
def PROPANE_EXPANSION_COEFFICIENT_F : ℝ := 0.0019

/-- const.py line 47. -/
def DEFAULT_ADJUSTMENT_COEFFICIENT : ℝ := PROPANE_EXPANSION_COEFFICIENT_F

/-- const.py line 18: end cap type string constant. -/
def END_CAP_FLAT : String := "flat"

/-- const.py line 19: end cap type string constant. -/
def END_CAP_ELLIPSOIDAL_2_1 : String := "ellipsoidal_2_1"

/-- Modelled from the spec: sensor.py imports TEMP_EXPANSION_COEFF_F from
.const but const.py in the snapshot does not define it.  Spec section 4.2
gives the Fahrenheit expansion coefficient default 0.0019 per degree,
matching PROPANE_EXPANSION_COEFFICIENT_F in const.py. -/
def TEMP_EXPANSION_COEFF_F : ℝ := 0.0019

/-- Modelled from the spec: sensor.py imports TEMP_EXPANSION_COEFF_C from
.const but const.py in the snapshot does not define it.  Spec section 4.2:
the Celsius coefficient is the Fahrenheit coefficient scaled by 9/5. -/
noncomputable def TEMP_EXPANSION_COEFF_C : ℝ := TEMP_EXPANSION_COEFF_F * (9 / 5)

/-- Modelled from the spec: sensor.py imports DEFAULT_REFERENCE_TEMP_F from
.const but const.py in the snapshot does not define it.  Spec section 4.2:
the Fahrenheit reference temperature is 60.0, matching
REFERENCE_TEMPERATURE_F in const.py. -/
def DEFAULT_REFERENCE_TEMP_F : ℝ := 60.0

/-- Modelled from the spec: sensor.py imports DEFAULT_REFERENCE_TEMP_C from
.const but const.py in the snapshot does not define it.  Spec section 4.2:
the Celsius reference temperature is 15.0. -/
def DEFAULT_REFERENCE_TEMP_C : ℝ := 15.0

namespace UnitOfTemperature

/-- The Home Assistant temperature unit string for Celsius. -/
def CELSIUS : String := "°C"

/-- The Home Assistant temperature unit string for Fahrenheit. -/
def FAHRENHEIT : String := "°F"

end UnitOfTemperature

/-! ### apply_temperature_compensation, sensor.py lines 39 to 80 -/

/-- sensor.py lines 39 to 80.  The unit test is a string comparison against
UnitOfTemperature.CELSIUS; every other unit falls to the Fahrenheit branch. -/
noncomputable def apply_temperature_compensation
    (volume_percentage temperature : ℝ) (temperature_unit : String) : ℝ :=
  let beta : ℝ :=
    if temperature_unit = UnitOfTemperature.CELSIUS then TEMP_EXPANSION_COEFF_C
    else TEMP_EXPANSION_COEFF_F
  let reference_temp : ℝ :=
    if temperature_unit = UnitOfTemperature.CELSIUS then DEFAULT_REFERENCE_TEMP_C
    else DEFAULT_REFERENCE_TEMP_F
  let temp_diff := temperature - reference_temp
  let compensation_factor := 1.0 / (1.0 + beta * temp_diff)
  volume_percentage * compensation_factor

/-- The expansion coefficient the code branch of sensor.py lines 64 to 70
selects for a given unit string. -/
noncomputable def unit_expansion_coeff (temperature_unit : String) : ℝ :=
  if temperature_unit = UnitOfTemperature.CELSIUS then TEMP_EXPANSION_COEFF_C
  else TEMP_EXPANSION_COEFF_F

/-- The reference temperature the code branch of sensor.py lines 64 to 70
selects for a given unit string. -/
noncomputable def unit_reference_temp (temperature_unit : String) : ℝ :=
  if temperature_unit = UnitOfTemperature.CELSIUS then DEFAULT_REFERENCE_TEMP_C
  else DEFAULT_REFERENCE_TEMP_F

/-! ### compute_horizontal_cylinder_volume_percentage, sensor.py lines 83 to 137 -/

/-- sensor.py lines 83 to 137.  The none branches mirror: the explicit
diameter validation, and the try/except guard (math.acos raises ValueError
outside the closed interval from -1 to 1, math.sqrt raises ValueError on
negative input, and the division raises ZeroDivisionError on a zero
denominator). -/
noncomputable def compute_horizontal_cylinder_volume_percentage
    (fill_height_inches diameter_inches : ℝ) : Option ℝ :=
  if diameter_inches ≤ 0 then none
  else
    let h := max 0 (min fill_height_inches diameter_inches)
    let r := diameter_inches / 2
    if h ≤ 0 then some 0
    else if diameter_inches ≤ h then some 100
    else if (r - h) / r < -1 ∨ 1 < (r - h) / r ∨ 2 * r * h - h * h < 0 ∨
        π * r * r = 0 then none
    else
      some ((r * r * Real.arccos ((r - h) / r) -
        (r - h) * Real.sqrt (2 * r * h - h * h)) / (π * r * r) * 100)

/-! ### compute_ellipsoidal_head_volume, sensor.py lines 140 to 170 -/

/-- sensor.py lines 140 to 170.  Total function: no validation, no guarded
exceptions. -/
noncomputable def compute_ellipsoidal_head_volume
    (fill_height radius head_depth : ℝ) : ℝ :=
  if fill_height ≤ 0 then 0
  else if 2 * radius ≤ fill_height then
    2 / 3 * π * radius * radius * head_depth
  else
    π * head_depth / (3 * radius * radius) * fill_height * fill_height *
      (3 * radius - fill_height)

/-- The integral closed form for the liquid volume in one semi-ellipsoidal
head, written exactly as the spec states it in section 4.1 Operation B:
with y the fill height minus the radius, the volume is
0.5 times pi times radius times head depth times
(y minus y cubed over three radius squared plus two thirds radius). -/
noncomputable def spec_head_volume_closed_form
    (fill_height radius head_depth : ℝ) : ℝ :=
  let y := fill_height - radius
  0.5 * π * radius * head_depth *
    (y - y ^ 3 / (3 * radius ^ 2) + 2 / 3 * radius)

/-! ### compute_tank_volume_with_heads, sensor.py lines 173 to 244 -/

/-- sensor.py lines 173 to 244.  The order of the branches follows the
source: input validation, clamping, the 0 and 100 boundary returns, then
the try block computing the segment area (its guarded ValueError
conditions), then the end cap dispatch with unknown kinds returning none,
and finally the guarded division by the total capacity. -/
noncomputable def compute_tank_volume_with_heads
    (fill_height diameter cylinder_length : ℝ)
    (end_cap_type : String) : Option ℝ :=
  if diameter ≤ 0 ∨ cylinder_length ≤ 0 then none
  else
    let h := max 0 (min fill_height diameter)
    let r := diameter / 2
    if h ≤ 0 then some 0
    else if diameter ≤ h then some 100
    else if (r - h) / r < -1 ∨ 1 < (r - h) / r ∨ 2 * r * h - h * h < 0 then none
    else
      let segment_area := r * r * Real.arccos ((r - h) / r) -
        (r - h) * Real.sqrt (2 * r * h - h * h)
      let cylinder_volume := segment_area * cylinder_length
      if end_cap_type = END_CAP_FLAT then
        if π * r * r * cylinder_length + 0 = 0 then none
        else some ((cylinder_volume + 0) / (π * r * r * cylinder_length + 0) * 100)
      else if end_cap_type = END_CAP_ELLIPSOIDAL_2_1 then
        let head_depth := r / 2
        let head_volume := 2 * compute_ellipsoidal_head_volume h r head_depth
        let total_head_volume := 2 * (2 / 3 * π * r * r * head_depth)
        if π * r * r * cylinder_length + total_head_volume = 0 then none
        else some ((cylinder_volume + head_volume) /
          (π * r * r * cylinder_length + total_head_volume) * 100)
      else none

/-! ### Theorems about thermal compensation -/

/-- The Fahrenheit unit string differs from the Celsius unit string. -/
theorem fahrenheit_ne_celsius :
    UnitOfTemperature.FAHRENHEIT ≠ UnitOfTemperature.CELSIUS := by decide

/-- The compensated value equals the measured value divided by the
compensation denominator selected by the unit. -/
theorem apply_temperature_compensation_eq_div (p T : ℝ) (u : String) :
    apply_temperature_compensation p T u
      = p / (1 + unit_expansion_coeff u * (T - unit_reference_temp u)) := by
  unfold apply_temperature_compensation unit_expansion_coeff unit_reference_temp
  split_ifs <;> norm_num [div_eq_mul_inv]

/-- The expansion coefficient selected for any unit is positive. -/
theorem unit_expansion_coeff_pos (u : String) : 0 < unit_expansion_coeff u := by
  unfold unit_expansion_coeff
  split_ifs <;> norm_num [TEMP_EXPANSION_COEFF_C, TEMP_EXPANSION_COEFF_F]

/-- C7: for every percentage and temperature, apply_temperature_compensation
returns the percentage divided by one plus the product of the expansion
coefficient selected by the unit and the deviation of the temperature from
the reference temperature selected by the unit, and at the reference
temperature of each supported unit it returns the input unchanged. -/
theorem c7_compensation_formula (p T : ℝ) :
    apply_temperature_compensation p T UnitOfTemperature.CELSIUS
      = p / (1 + TEMP_EXPANSION_COEFF_C * (T - DEFAULT_REFERENCE_TEMP_C)) ∧
    apply_temperature_compensation p T UnitOfTemperature.FAHRENHEIT
      = p / (1 + TEMP_EXPANSION_COEFF_F * (T - DEFAULT_REFERENCE_TEMP_F)) ∧
    apply_temperature_compensation p DEFAULT_REFERENCE_TEMP_C
      UnitOfTemperature.CELSIUS = p ∧
    apply_temperature_compensation p DEFAULT_REFERENCE_TEMP_F
      UnitOfTemperature.FAHRENHEIT = p := by
  refine ⟨?_, ?_, ?_, ?_⟩ <;>
    simp [apply_temperature_compensation, fahrenheit_ne_celsius, mul_one_div] <;>
    norm_num [div_eq_mul_inv]

/-- C8: the Fahrenheit branch uses reference temperature 60.0 with
expansion coefficient 0.0019 per degree, equal to the propane coefficient
and reference temperature recorded in const.py, and the Celsius branch
uses reference temperature 15.0 with a coefficient equal to 9/5 times the
Fahrenheit coefficient. -/
theorem c8_compensation_constants :
    DEFAULT_REFERENCE_TEMP_F = 60 ∧
    TEMP_EXPANSION_COEFF_F = 0.0019 ∧
    DEFAULT_REFERENCE_TEMP_C = 15 ∧
    TEMP_EXPANSION_COEFF_C = 9 / 5 * TEMP_EXPANSION_COEFF_F ∧
    TEMP_EXPANSION_COEFF_F = PROPANE_EXPANSION_COEFFICIENT_F ∧
    DEFAULT_REFERENCE_TEMP_F = REFERENCE_TEMPERATURE_F := by
  norm_num [DEFAULT_REFERENCE_TEMP_F, TEMP_EXPANSION_COEFF_F,
    DEFAULT_REFERENCE_TEMP_C, TEMP_EXPANSION_COEFF_C,
    PROPANE_EXPANSION_COEFFICIENT_F, REFERENCE_TEMPERATURE_F]

/-- C9 counterexample: the percentage 50 measured at -600 degrees
Fahrenheit lies below the Fahrenheit reference temperature, yet the
compensated value is strictly smaller than 50, not larger: the
compensation denominator is negative there, so the direction claim fails
as universally stated. -/
theorem c9_counterexample_extreme_cold :
    apply_temperature_compensation 50 (-600) UnitOfTemperature.FAHRENHEIT < 50 ∧
    (-600 : ℝ) < unit_reference_temp UnitOfTemperature.FAHRENHEIT ∧
    (0 : ℝ) < 50 := by
  refine ⟨?_, ?_, by norm_num⟩
  · simp only [apply_temperature_compensation, fahrenheit_ne_celsius, if_neg,
      if_false, TEMP_EXPANSION_COEFF_F, DEFAULT_REFERENCE_TEMP_F]
    norm_num
  · simp only [unit_reference_temp, fahrenheit_ne_celsius, if_neg, if_false,
      DEFAULT_REFERENCE_TEMP_F]
    norm_num

/-- C9 amended: for every positive percentage and every unit, whenever the
compensation denominator stays positive, the compensated value is strictly
smaller than the input when the temperature is above the reference
temperature selected for the unit, and strictly larger when it is below. -/
theorem c9_amended_compensation_direction (p T : ℝ) (u : String) (hp : 0 < p)
    (hden : 0 < 1 + unit_expansion_coeff u * (T - unit_reference_temp u)) :
    (unit_reference_temp u < T → apply_temperature_compensation p T u < p) ∧
    (T < unit_reference_temp u → p < apply_temperature_compensation p T u) := by
  have hbeta := unit_expansion_coeff_pos u
  rw [apply_temperature_compensation_eq_div]
  constructor
  · intro hT
    have h1 : 1 < 1 + unit_expansion_coeff u * (T - unit_reference_temp u) := by
      nlinarith
    exact div_lt_self hp h1
  · intro hT
    have h1 : 1 + unit_expansion_coeff u * (T - unit_reference_temp u) < 1 := by
      nlinarith
    rw [lt_div_iff₀ hden]
    nlinarith

/-- C9 witness: at 80 degrees Fahrenheit, above the reference temperature
of 60, compensating 50 percent yields less than 50; at 40 degrees, below
the reference, it yields more than 50. -/
theorem c9_amended_compensation_direction_witness :
    apply_temperature_compensation 50 80 UnitOfTemperature.FAHRENHEIT < 50 ∧
    50 < apply_temperature_compensation 50 40 UnitOfTemperature.FAHRENHEIT := by
  have href : unit_reference_temp UnitOfTemperature.FAHRENHEIT = 60 := by
    simp only [unit_reference_temp, fahrenheit_ne_celsius, if_neg, if_false]
    norm_num [DEFAULT_REFERENCE_TEMP_F]
  have hcoeff : unit_expansion_coeff UnitOfTemperature.FAHRENHEIT = 0.0019 := by
    simp only [unit_expansion_coeff, fahrenheit_ne_celsius, if_neg, if_false]
    norm_num [TEMP_EXPANSION_COEFF_F]
  constructor
  · exact (c9_amended_compensation_direction 50 80 UnitOfTemperature.FAHRENHEIT
      (by norm_num) (by rw [hcoeff, href]; norm_num)).1 (by rw [href]; norm_num)
  · exact (c9_amended_compensation_direction 50 40 UnitOfTemperature.FAHRENHEIT
      (by norm_num) (by rw [hcoeff, href]; norm_num)).2 (by rw [href]; norm_num)

/-- C10: for every unit string other than the Celsius string, the function
performs no validation and produces the same value as for the Fahrenheit
unit string. -/
theorem c10_unknown_unit_defaults_to_fahrenheit (p T : ℝ) (u : String)
    (hu : u ≠ UnitOfTemperature.CELSIUS) :
    apply_temperature_compensation p T u
      = apply_temperature_compensation p T UnitOfTemperature.FAHRENHEIT := by
  simp [apply_temperature_compensation, hu, fahrenheit_ne_celsius]

/-- C10 witness: the Kelvin unit string is handled exactly like the
Fahrenheit unit string. -/
theorem c10_unknown_unit_defaults_to_fahrenheit_witness :
    apply_temperature_compensation 50 300 "K"
      = apply_temperature_compensation 50 300 UnitOfTemperature.FAHRENHEIT :=
  c10_unknown_unit_defaults_to_fahrenheit 50 300 "K" (by decide)

/-- The Fahrenheit branch selects the coefficient 0.0019. -/
theorem unit_expansion_coeff_fahrenheit :
    unit_expansion_coeff UnitOfTemperature.FAHRENHEIT = 0.0019 := by
  simp only [unit_expansion_coeff, fahrenheit_ne_celsius, if_neg, if_false]
  norm_num [TEMP_EXPANSION_COEFF_F]

/-- The Fahrenheit branch selects the reference temperature 60. -/
theorem unit_reference_temp_fahrenheit :
    unit_reference_temp UnitOfTemperature.FAHRENHEIT = 60 := by
  simp only [unit_reference_temp, fahrenheit_ne_celsius, if_neg, if_false]
  norm_num [DEFAULT_REFERENCE_TEMP_F]

/-- C4 counterexample: a percentage of 100 measured at 40 degrees
Fahrenheit is compensated to a value strictly greater than 100, so the
range invariant does not hold for the compensation operation. -/
theorem c4_counterexample_compensation_exceeds_100 :
    100 < apply_temperature_compensation 100 40 UnitOfTemperature.FAHRENHEIT := by
  rw [apply_temperature_compensation_eq_div, unit_expansion_coeff_fahrenheit,
    unit_reference_temp_fahrenheit]
  norm_num

/-! ### Bounds for the circular segment area -/

/-- Core inequality for the circular segment: for any cosine value X in
the closed interval from -1 to 1, the normalized segment area
arccos X minus X times the square root of one minus X squared lies
between 0 and pi.  The proof uses only that the sine function is bounded
by its argument on the nonnegative reals. -/
theorem circ_core_bounds (X : ℝ) (h1 : -1 ≤ X) (h2 : X ≤ 1) :
    0 ≤ Real.arccos X - X * Real.sqrt (1 - X ^ 2) ∧
    Real.arccos X - X * Real.sqrt (1 - X ^ 2) ≤ π := by
  have hθ0 : 0 ≤ Real.arccos X := Real.arccos_nonneg X
  have hθπ : Real.arccos X ≤ π := Real.arccos_le_pi X
  have hcos : Real.cos (Real.arccos X) = X := Real.cos_arccos h1 h2
  have hsin : Real.sin (Real.arccos X) = Real.sqrt (1 - X ^ 2) :=
    Real.sin_arccos X
  have hsin0 : 0 ≤ Real.sin (Real.arccos X) :=
    Real.sin_nonneg_of_nonneg_of_le_pi hθ0 hθπ
  have hlow : X * Real.sqrt (1 - X ^ 2) ≤ Real.arccos X := by
    calc X * Real.sqrt (1 - X ^ 2)
        = Real.cos (Real.arccos X) * Real.sin (Real.arccos X) := by
          rw [hcos, hsin]
      _ ≤ 1 * Real.sin (Real.arccos X) :=
          mul_le_mul_of_nonneg_right (Real.cos_le_one _) hsin0
      _ = Real.sin (Real.arccos X) := one_mul _
      _ ≤ Real.arccos X := Real.sin_le hθ0
  have hφ0 : 0 ≤ π - Real.arccos X := by linarith
  have hup : -(X * Real.sqrt (1 - X ^ 2)) ≤ π - Real.arccos X := by
    calc -(X * Real.sqrt (1 - X ^ 2))
        = Real.cos (π - Real.arccos X) * Real.sin (π - Real.arccos X) := by
          rw [Real.cos_pi_sub, Real.sin_pi_sub, hcos, hsin]; ring
      _ ≤ 1 * Real.sin (π - Real.arccos X) :=
          mul_le_mul_of_nonneg_right (Real.cos_le_one _)
            (by rw [Real.sin_pi_sub]; exact hsin0)
      _ = Real.sin (π - Real.arccos X) := one_mul _
      _ ≤ π - Real.arccos X := Real.sin_le hφ0
  constructor <;> linarith

/-- The circular segment area of a disc of radius r filled to a height h
strictly between 0 and the diameter lies between 0 and the full circle
area. -/
theorem segment_area_bounds (r h : ℝ) (hr : 0 < r) (h0 : 0 < h)
    (hh2r : h < 2 * r) :
    0 ≤ r * r * Real.arccos ((r - h) / r) -
      (r - h) * Real.sqrt (2 * r * h - h * h) ∧
    r * r * Real.arccos ((r - h) / r) -
      (r - h) * Real.sqrt (2 * r * h - h * h) ≤ π * r * r := by
  have hX1 : -1 ≤ (r - h) / r := by rw [le_div_iff₀ hr]; linarith
  have hX2 : (r - h) / r ≤ 1 := by rw [div_le_one hr]; linarith
  obtain ⟨hc0, hcπ⟩ := circ_core_bounds ((r - h) / r) hX1 hX2
  have hs : 0 ≤ 2 * r * h - h * h := by nlinarith
  have h1X : 1 - ((r - h) / r) ^ 2 = (2 * r * h - h * h) / r ^ 2 := by
    field_simp
    ring
  have hsqrt : Real.sqrt (2 * r * h - h * h)
      = r * Real.sqrt (1 - ((r - h) / r) ^ 2) := by
    rw [h1X, Real.sqrt_div hs, Real.sqrt_sq hr.le]
    field_simp
  have hXr : r - h = (r - h) / r * r := by
    field_simp
  have hgoal_eq : r * r * Real.arccos ((r - h) / r) -
      (r - h) * Real.sqrt (2 * r * h - h * h)
      = r * r * (Real.arccos ((r - h) / r) -
        (r - h) / r * Real.sqrt (1 - ((r - h) / r) ^ 2)) := by
    rw [hsqrt]
    linear_combination (-(r * Real.sqrt (1 - ((r - h) / r) ^ 2))) * hXr
  rw [hgoal_eq]
  constructor
  · exact mul_nonneg (by positivity) hc0
  · calc r * r * (Real.arccos ((r - h) / r) -
        (r - h) / r * Real.sqrt (1 - ((r - h) / r) ^ 2))
        ≤ r * r * π := mul_le_mul_of_nonneg_left hcπ (by positivity)
      _ = π * r * r := by ring

/-! ### The guard conditions are unreachable in the interior -/

/-- For a positive diameter and a fill height strictly inside the tank,
the three guarded numeric domain conditions of the try blocks are all
false: the arccos argument stays in the closed interval from -1 to 1 and
the sqrt argument stays nonnegative. -/
theorem guard3_false (d h : ℝ) (hd : 0 < d) (h0 : 0 < h) (hhd : h < d) :
    ¬((d / 2 - h) / (d / 2) < -1 ∨ 1 < (d / 2 - h) / (d / 2) ∨
      2 * (d / 2) * h - h * h < 0) := by
  have hr : 0 < d / 2 := by
    have := hd
    linarith
  push_neg
  refine ⟨?_, ?_, ?_⟩
  · rw [le_div_iff₀ hr]; linarith
  · rw [div_le_one hr]; linarith
  · nlinarith

/-- In the pure cylinder computation the additional zero denominator
guard is also unreachable. -/
theorem guard4_false (d h : ℝ) (hd : 0 < d) (h0 : 0 < h) (hhd : h < d) :
    ¬((d / 2 - h) / (d / 2) < -1 ∨ 1 < (d / 2 - h) / (d / 2) ∨
      2 * (d / 2) * h - h * h < 0 ∨ π * (d / 2) * (d / 2) = 0) := by
  have h3 := guard3_false d h hd h0 hhd
  push_neg at h3 ⊢
  exact ⟨h3.1, h3.2.1, h3.2.2, by positivity⟩

/-! ### Clamping facts -/

/-- For a positive diameter, the clamped height is nonpositive exactly
when the raw fill height is nonpositive. -/
theorem clamp_nonpos_iff (fh d : ℝ) (hd : 0 < d) :
    max 0 (min fh d) ≤ 0 ↔ fh ≤ 0 := by
  simp [max_le_iff, min_le_iff, hd.not_le]

/-- For a positive diameter, the clamped height reaches the diameter
exactly when the raw fill height does. -/
theorem clamp_ge_diameter_iff (fh d : ℝ) (hd : 0 < d) :
    d ≤ max 0 (min fh d) ↔ d ≤ fh := by
  simp [le_max_iff, le_min_iff, hd.not_le]

/-- C6: the pure cylinder computation returns no value exactly when the
diameter is nonpositive; for a positive diameter the clamping keeps every
guarded numeric domain condition false, so a numeric percentage is always
returned and the failure branch is unreachable. -/
theorem c6_cylinder_none_iff_nonpos_diameter (fh d : ℝ) :
    compute_horizontal_cylinder_volume_percentage fh d = none ↔ d ≤ 0 := by
  simp only [compute_horizontal_cylinder_volume_percentage]
  rcases le_or_lt d 0 with hd | hd
  · rw [if_pos hd]
    simp [hd]
  · rw [if_neg hd.not_le]
    split_ifs with hh0 hhd hguard
    · simp [hd.not_le]
    · simp [hd.not_le]
    · exact absurd hguard
        (guard4_false d (max 0 (min fh d)) hd (not_le.mp hh0) (not_le.mp hhd))
    · simp [hd.not_le]

/-- C4 amended: every percentage the pure cylinder computation returns
lies between 0 and 100, and it is absent exactly for a nonpositive
diameter; the range invariant does not extend to the compensation
operation, which can exceed 100 below the reference temperature. -/
theorem c4_amended_cylinder_percentage_in_range (fh d x : ℝ)
    (hx : compute_horizontal_cylinder_volume_percentage fh d = some x) :
    0 ≤ x ∧ x ≤ 100 := by
  simp only [compute_horizontal_cylinder_volume_percentage] at hx
  split_ifs at hx with hd hh0 hhd hguard
  · obtain rfl : (0 : ℝ) = x := Option.some.inj hx
    norm_num
  · obtain rfl : (100 : ℝ) = x := Option.some.inj hx
    norm_num
  · have hd' : 0 < d := not_le.mp hd
    have hr : 0 < d / 2 := by linarith
    have h0 : 0 < max 0 (min fh d) := not_le.mp hh0
    have hhd' : max 0 (min fh d) < d := not_le.mp hhd
    obtain ⟨hseg0, hsegle⟩ :=
      segment_area_bounds (d / 2) (max 0 (min fh d)) hr h0 (by linarith)
    obtain rfl : _ = x := Option.some.inj hx
    constructor
    · exact mul_nonneg (div_nonneg hseg0 (by positivity)) (by norm_num)
    · have hden : (0 : ℝ) < π * (d / 2) * (d / 2) := by positivity
      have h1 := (div_le_one hden).mpr hsegle
      linarith

/-- C4 witness: the empty tank evaluates to the percentage 0, which lies
in the valid range. -/
theorem c4_amended_cylinder_percentage_in_range_witness :
    0 ≤ (0 : ℝ) ∧ (0 : ℝ) ≤ 100 :=
  c4_amended_cylinder_percentage_in_range 0 24 0
    (by norm_num [compute_horizontal_cylinder_volume_percentage, min_def, max_def])

/-- C5: the pure cylinder percentage is invariant under scaling both the
fill height and the diameter by the same positive factor. -/
theorem c5_scale_invariance (fh d k : ℝ) (hd : 0 < d) (hk : 0 < k) :
    compute_horizontal_cylinder_volume_percentage (k * fh) (k * d)
      = compute_horizontal_cylinder_volume_percentage fh d := by
  have hk0 : k ≠ 0 := ne_of_gt hk
  have hkd : 0 < k * d := mul_pos hk hd
  simp only [compute_horizontal_cylinder_volume_percentage]
  rw [if_neg (not_le.mpr hkd), if_neg (not_le.mpr hd)]
  have hmin : min (k * fh) (k * d) = k * min fh d := by
    rcases le_total fh d with hle | hle
    · rw [min_eq_left hle, min_eq_left (by nlinarith)]
    · rw [min_eq_right hle, min_eq_right (by nlinarith)]
  have hmax : max 0 (k * min fh d) = k * max 0 (min fh d) := by
    rcases le_total 0 (min fh d) with hle | hle
    · rw [max_eq_right hle, max_eq_right (by nlinarith)]
    · rw [max_eq_left hle, max_eq_left (by nlinarith)]
      ring
  rw [hmin, hmax]
  set h := max 0 (min fh d) with hhdef
  have hh0iff : (k * h ≤ 0) ↔ (h ≤ 0) := by
    constructor <;> intro hle <;> nlinarith
  have hhdiff : (k * d ≤ k * h) ↔ (d ≤ h) := by
    constructor <;> intro hle <;> nlinarith
  by_cases hh0 : h ≤ 0
  · rw [if_pos (hh0iff.mpr hh0), if_pos hh0]
  · have h0 : 0 < h := not_le.mp hh0
    rw [if_neg (hh0iff.not.mpr hh0), if_neg hh0]
    by_cases hhd : d ≤ h
    · rw [if_pos (hhdiff.mpr hhd), if_pos hhd]
    · have hhd' : h < d := not_le.mp hhd
      rw [if_neg (hhdiff.not.mpr hhd), if_neg hhd]
      rw [if_neg (guard4_false (k * d) (k * h) hkd (mul_pos hk h0) (by nlinarith)),
        if_neg (guard4_false d h hd h0 hhd')]
      congr 1
      have hX : (k * d / 2 - k * h) / (k * d / 2) = (d / 2 - h) / (d / 2) := by
        rw [show k * d / 2 - k * h = k * (d / 2 - h) by ring,
          show k * d / 2 = k * (d / 2) by ring,
          mul_div_mul_left _ _ hk0]
      have hsqrt : Real.sqrt (2 * (k * d / 2) * (k * h) - k * h * (k * h))
          = k * Real.sqrt (2 * (d / 2) * h - h * h) := by
        rw [show 2 * (k * d / 2) * (k * h) - k * h * (k * h)
            = k ^ 2 * (2 * (d / 2) * h - h * h) by ring,
          Real.sqrt_mul (sq_nonneg k), Real.sqrt_sq hk.le]
      rw [hX, hsqrt]
      have hdne : d ≠ 0 := ne_of_gt hd
      field_simp
      ring

/-- C5 witness: doubling both the fill height 6 and the diameter 24
leaves the percentage unchanged. -/
theorem c5_scale_invariance_witness :
    compute_horizontal_cylinder_volume_percentage (2 * 6) (2 * 24)
      = compute_horizontal_cylinder_volume_percentage 6 24 :=
  c5_scale_invariance 6 24 2 (by norm_num) (by norm_num)

/-- C1: evaluated at the fill height 10, radius 12 and head depth 6 used
by the repository test suite, the implemented polynomial head volume
yields 325 pi over 9 while the integral closed form of the spec yields
650 pi over 3; the two formulas are therefore not equivalent and the
implemented value disagrees with the closed form the test asserts. -/
theorem c1_head_volume_polynomial_ne_integral_form :
    compute_ellipsoidal_head_volume 10 12 6 = 325 * π / 9 ∧
    spec_head_volume_closed_form 10 12 6 = 650 * π / 3 ∧
    compute_ellipsoidal_head_volume 10 12 6
      ≠ spec_head_volume_closed_form 10 12 6 := by
  have ha : compute_ellipsoidal_head_volume 10 12 6 = 325 * π / 9 := by
    simp only [compute_ellipsoidal_head_volume]
    norm_num
    ring
  have hb : spec_head_volume_closed_form 10 12 6 = 650 * π / 3 := by
    simp only [spec_head_volume_closed_form]
    norm_num
    ring
  refine ⟨ha, hb, ?_⟩
  rw [ha, hb]
  have hpi := Real.pi_pos
  intro heq
  linarith

/-- C2: at half the diameter with 2 to 1 ellipsoidal heads the code
returns 1825 over 42, about 43.45 percent, not 50 percent: the head
volume coefficient defect makes the half fill percentage deviate from the
symmetry value asserted by the spec and by the repository test suite. -/
theorem c2_ellipsoidal_half_fill_not_half_volume :
    compute_tank_volume_with_heads 24 48 96 END_CAP_ELLIPSOIDAL_2_1
      = some (1825 / 42) ∧ (1825 / 42 : ℝ) ≠ 50 := by
  constructor
  · simp only [compute_tank_volume_with_heads, compute_ellipsoidal_head_volume,
      END_CAP_ELLIPSOIDAL_2_1, END_CAP_FLAT]
    norm_num [min_def, max_def, Real.arccos_zero]
    rw [if_neg (by decide : ¬(("ellipsoidal_2_1" : String) = "flat"))]
    rw [if_neg (by positivity :
      ¬(π * 24 * 24 * 96 + 2 * (2 / 3 * π * 24 * 24 * 12) = 0))]
    rw [Option.some.injEq, div_mul_eq_mul_div,
      div_eq_iff (by positivity :
        (π * 24 * 24 * 96 + 2 * (2 / 3 * π * 24 * 24 * 12)) ≠ 0)]
    ring
  · norm_num

/-- C3 counterexample: with the unknown end cap kind "conical" and a fill
height at or below zero, the function returns the percentage 0, not the
absent value the claim demands for every fill height. -/
theorem c3_counterexample_unknown_cap_boundary :
    compute_tank_volume_with_heads 0 10 10 "conical" = some 0 ∧
    "conical" ≠ END_CAP_FLAT ∧ "conical" ≠ END_CAP_ELLIPSOIDAL_2_1 := by
  refine ⟨?_, by decide, by decide⟩
  simp only [compute_tank_volume_with_heads]
  norm_num [min_def, max_def]

/-- C3 amended: the tank computation returns no value whenever the
diameter or the cylinder length is nonpositive, and for an unknown end
cap kind with valid geometry it returns no value exactly when the fill
height lies strictly between 0 and the diameter; at the boundaries the 0
and 100 returns precede the end cap validation. -/
theorem c3_amended_none_conditions (fh d L : ℝ) (u : String) :
    ((d ≤ 0 ∨ L ≤ 0) → compute_tank_volume_with_heads fh d L u = none) ∧
    (u ≠ END_CAP_FLAT → u ≠ END_CAP_ELLIPSOIDAL_2_1 → 0 < d → 0 < L →
      (compute_tank_volume_with_heads fh d L u = none ↔ 0 < fh ∧ fh < d)) := by
  constructor
  · intro hinv
    simp only [compute_tank_volume_with_heads]
    rw [if_pos hinv]
  · intro hu1 hu2 hd hL
    simp only [compute_tank_volume_with_heads]
    rw [if_neg (not_or.mpr ⟨not_le.mpr hd, not_le.mpr hL⟩)]
    by_cases hfh0 : fh ≤ 0
    · rw [if_pos ((clamp_nonpos_iff fh d hd).mpr hfh0)]
      constructor
      · intro hc
        exact absurd hc (by simp)
      · rintro ⟨h1, -⟩
        exact absurd hfh0 (not_le.mpr h1)
    · have hh0 : ¬ max 0 (min fh d) ≤ 0 := fun c =>
        hfh0 ((clamp_nonpos_iff fh d hd).mp c)
      rw [if_neg hh0]
      by_cases hfhd : d ≤ fh
      · rw [if_pos ((clamp_ge_diameter_iff fh d hd).mpr hfhd)]
        constructor
        · intro hc
          exact absurd hc (by simp)
        · rintro ⟨-, h2⟩
          exact absurd hfhd (not_le.mpr h2)
      · have hdh : ¬ d ≤ max 0 (min fh d) := fun c =>
          hfhd ((clamp_ge_diameter_iff fh d hd).mp c)
        rw [if_neg hdh]
        rw [if_neg (guard3_false d (max 0 (min fh d)) hd (not_le.mp hh0)
          (not_le.mp hdh))]
        rw [if_neg hu1, if_neg hu2]
        simp [not_le.mp hfh0, not_le.mp hfhd]

/-- C3 witness: with valid geometry and the unknown end cap kind "dome",
an interior fill height yields no value. -/
theorem c3_amended_none_conditions_witness :
    compute_tank_volume_with_heads 5 10 10 "dome" = none :=
  ((c3_amended_none_conditions 5 10 10 "dome").2 (by decide) (by decide)
    (by norm_num) (by norm_num)).mpr (by norm_num)

end TankVolume
